import Mathlib

/-!
Shallow embedding of the Library Management System API (`src/app/main.py`)
and verification of its specification claims.

Modelling conventions:
* Timestamps (`datetime.utcnow()` values) are integers counting seconds;
  `timedelta(days = n)` is `n * 86400` seconds.  For a positive gap,
  Python's `timedelta.days` is the floor of seconds / 86400, which for the
  positive divisor 86400 coincides with Lean's integer division.
* Currency amounts (Python floats such as `0.50`) are rationals; every
  amount produced by the code is an exact multiple of 1/2, so no
  floating-point rounding is involved.
* The SQLAlchemy session is a `DB` record of four tables (lists of rows)
  plus the autoincrement counters for primary keys.  `db.query(T).filter`
  followed by `.first()` is `List.find?`, `.count()` is `List.length` of a
  `List.filter`, `.all()` is `List.filter`.  Mutating a fetched row and
  committing is mapping the update over the table at that primary key
  (primary keys are unique, so at most one row matches).
* `raise HTTPException(status_code = c)` is `Except.error`; raises in the
  source happen before any mutation, so an error returns no modified state.
  Status 404 is `ApiError.notFound`, 409 is `ApiError.conflict`.  A
  database `UNIQUE` constraint violation at `db.commit()` (IntegrityError)
  that no endpooint catches, and the `AttributeError` from touching a
  `None` row, are `ApiError.integrityError` / `ApiError.internalError`:
  both escape the endpoint unhandled (HTTP 500), they are not 409s.
-/

/-- `class BookStatus(str, enum.Enum)`, main.py lines 27-31. -/
inductive BookStatus where
  | available
  | borrowed
  | reserved
  | maintenance
deriving DecidableEq, Repr, Inhabited

/-- `class MemberStatus(str, enum.Enum)`, main.py lines 33-35. -/
inductive MemberStatus where
  | active
  | suspended
deriving DecidableEq, Repr, Inhabited

/-- `class TransactionStatus(str, enum.Enum)`, main.py lines 37-40. -/
inductive TransactionStatus where
  | active
  | returned
  | overdue
deriving DecidableEq, Repr, Inhabited

/-- `class Book(Base)`, main.py lines 43-54.  `created_at`/`updated_at`
are audit columns no claim mentions and are omitted.  Copy counts are
integers (Python `int`): the source never validates that they are
non-negative. -/
structure Book where
  id : Nat
  isbn : String
  title : String
  author : String
  category : String
  status : BookStatus
  total_copies : Int
  available_copies : Int
deriving DecidableEq, Repr, Inhabited

/-- `class Member(Base)`, main.py lines 56-64 (audit columns omitted). -/
structure Member where
  id : Nat
  name : String
  email : String
  membership_number : String
  status : MemberStatus
deriving DecidableEq, Repr, Inhabited

/-- `class Transaction(Base)`, main.py lines 66-76 (audit columns
omitted).  `returned_at` is nullable. -/
structure Transaction where
  id : Nat
  book_id : Nat
  member_id : Nat
  borrowed_at : Int
  due_date : Int
  returned_at : Option Int
  status : TransactionStatus
deriving DecidableEq, Repr, Inhabited

/-- `class Fine(Base)`, main.py lines 78-86 (audit columns omitted).
`paid_at` is nullable; a fine is unpaid while it is `none`. -/
structure Fine where
  id : Nat
  member_id : Nat
  transaction_id : Nat
  amount : ℚ
  paid_at : Option Int
deriving DecidableEq, Repr, Inhabited

/-- The persistent store: the four tables created by
`Base.metadata.create_all` plus the autoincrement primary-key counters. -/
structure DB where
  books : List Book
  members : List Member
  transactions : List Transaction
  fines : List Fine
  next_book_id : Nat
  next_member_id : Nat
  next_transaction_id : Nat
  next_fine_id : Nat
deriving DecidableEq, Repr, Inhabited

/-- Outcomes of a request.  `notFound` is `HTTPException(404)`,
`conflict` is `HTTPException(409)`; `integrityError` is an uncaught
`IntegrityError` from a `UNIQUE` column constraint at commit, and
`internalError` an uncaught `AttributeError` on a `None` row — the last
two escape the endpoint unhandled, so they are not 404/409 responses. -/
inductive ApiError where
  | notFound (detail : String)
  | conflict (detail : String)
  | integrityError
  | internalError
deriving DecidableEq, Repr, Inhabited

/-- HTTP status the API layer produces for each outcome:
`HTTPException` carries its own code; an exception no handler catches is
a 500 Internal Server Error. -/
def httpStatus : ApiError → Nat
  | .notFound _ => 404
  | .conflict _ => 409
  | .integrityError => 500
  | .internalError => 500

/-- `create_book`, main.py lines 159-172.  The endpoint itself performs no
duplicate check; `Book.isbn` is `Column(String, unique=True)` (line 46), so
inserting a second book with an existing isbn makes `db.commit()` raise
`IntegrityError`, which `create_book` does not catch. -/
def create_book (db : DB) (isbn title author category : String)
    (total_copies : Int) : Except ApiError (DB × Book) :=
  if db.books.any (fun b => b.isbn == isbn) then
    Except.error ApiError.integrityError
  else
    let book : Book :=
      { id := db.next_book_id, isbn := isbn, title := title, author := author,
        category := category, status := BookStatus.available,
        total_copies := total_copies, available_copies := total_copies }
    Except.ok ({ db with books := db.books ++ [book],
                         next_book_id := db.next_book_id + 1 }, book)

/-- `create_member`, main.py lines 190-201.  The generated
`str(uuid.uuid4())` is a nondeterministic input, passed as the
`membership_number` argument.  `Member.email` and
`Member.membership_number` are `unique=True` columns (lines 60-61), again
enforced only by the database at commit. -/
def create_member (db : DB) (name email membership_number : String) :
    Except ApiError (DB × Member) :=
  if db.members.any (fun m =>
      m.email == email || m.membership_number == membership_number) then
    Except.error ApiError.integrityError
  else
    let member : Member :=
      { id := db.next_member_id, name := name, email := email,
        membership_number := membership_number,
        status := MemberStatus.active }
    Except.ok ({ db with members := db.members ++ [member],
                         next_member_id := db.next_member_id + 1 }, member)

/-- `update_book`, main.py lines 304-317.  Overwrites the five writable
fields; does not recompute `available_copies`.  A new isbn colliding with
a different row's isbn trips the `UNIQUE` constraint at commit. -/
def update_book (db : DB) (book_id : Nat)
    (isbn title author category : String) (total_copies : Int) :
    Except ApiError (DB × Book) :=
  match db.books.find? (fun b => b.id == book_id) with
  | none => Except.error (ApiError.notFound "Book not found")
  | some db_book =>
    if db.books.any (fun b => b.id != book_id && b.isbn == isbn) then
      Except.error ApiError.integrityError
    else
      let book' : Book :=
        { db_book with isbn := isbn, title := title, author := author,
                       category := category, total_copies := total_copies }
      let books' := db.books.map (fun b => if b.id == book_id then book' else b)
      Except.ok ({ db with books := books' }, book')

/-- `delete_book`, main.py lines 320-327: unguarded removal of the row. -/
def delete_book (db : DB) (book_id : Nat) : Except ApiError DB :=
  match db.books.find? (fun b => b.id == book_id) with
  | none => Except.error (ApiError.notFound "Book not found")
  | some _ =>
    Except.ok { db with books := db.books.filter (fun b => b.id != book_id) }

/-- `update_member`, main.py lines 330-340. -/
def update_member (db : DB) (member_id : Nat) (name email : String) :
    Except ApiError (DB × Member) :=
  match db.members.find? (fun m => m.id == member_id) with
  | none => Except.error (ApiError.notFound "Member not found")
  | some db_member =>
    if db.members.any (fun m => m.id != member_id && m.email == email) then
      Except.error ApiError.integrityError
    else
      let member' : Member := { db_member with name := name, email := email }
      let members' :=
        db.members.map (fun m => if m.id == member_id then member' else m)
      Except.ok ({ db with members := members' }, member')

/-- `delete_member`, main.py lines 343-350. -/
def delete_member (db : DB) (member_id : Nat) : Except ApiError DB :=
  match db.members.find? (fun m => m.id == member_id) with
  | none => Except.error (ApiError.notFound "Member not found")
  | some _ =>
    Except.ok
      { db with members := db.members.filter (fun m => m.id != member_id) }

/-- The count the borrow limit check runs, main.py lines 230-233:
`db.query(Transaction).filter(member_id == ..., status == active).count()`. -/
def active_count (db : DB) (member_id : Nat) : Nat :=
  (db.transactions.filter (fun t =>
    t.member_id == member_id && t.status == TransactionStatus.active)).length

/-- The count the unpaid-fines check runs, main.py lines 239-242:
`db.query(Fine).filter(member_id == ..., paid_at == None).count()`. -/
def unpaid_count (db : DB) (member_id : Nat) : Nat :=
  (db.fines.filter (fun f =>
    f.member_id == member_id && f.paid_at == none)).length

/-- `borrow_book`, main.py lines 215-262, step by step in source order:
resolve member (404), resolve book (404), availability check (409),
borrowing-limit check (409), unpaid-fines check (409), then create the
transaction (`borrowed_at` defaults to `utcnow`, `due_date = utcnow +
timedelta(days=14)`, status defaults to active, `returned_at` null),
decrement `available_copies`, and set the book borrowed when the count
reaches 0. -/
def borrow_book (db : DB) (now : Int) (book_id member_id : Nat) :
    Except ApiError (DB × Transaction) :=
  match db.members.find? (fun m => m.id == member_id) with
  | none => Except.error (ApiError.notFound "Member not found")
  | some _member =>
  match db.books.find? (fun b => b.id == book_id) with
  | none => Except.error (ApiError.notFound "Book not found")
  | some book =>
  if book.status ≠ BookStatus.available ∨ book.available_copies = 0 then
    Except.error (ApiError.conflict "Book not available")
  else if active_count db member_id ≥ 3 then
    Except.error (ApiError.conflict "Maximum borrowing limit reached")
  else if unpaid_count db member_id > 0 then
    Except.error (ApiError.conflict "Member has unpaid fines")
  else
    let due_date := now + 14 * 86400
    let tr : Transaction :=
      { id := db.next_transaction_id, book_id := book_id,
        member_id := member_id, borrowed_at := now, due_date := due_date,
        returned_at := none, status := TransactionStatus.active }
    let book' : Book :=
      { book with
        available_copies := book.available_copies - 1,
        status := if book.available_copies - 1 = 0 then BookStatus.borrowed
                  else book.status }
    Except.ok
      ({ db with
         books := db.books.map (fun b => if b.id == book_id then book' else b),
         transactions := db.transactions ++ [tr],
         next_transaction_id := db.next_transaction_id + 1 }, tr)

/-- `return_book`, main.py lines 264-292, step by step in source order:
resolve transaction (404), resolve its book (`book.available_copies` on a
`None` book would be an uncaught AttributeError), stamp `returned_at =
now` and status returned — with no guard that the transaction was still
active — increment `available_copies`, set the book available when the
count is positive, and when `returned_at > due_date` add one fine of
`days_overdue * 0.50` with null `paid_at`. -/
def return_book (db : DB) (now : Int) (transaction_id : Nat) :
    Except ApiError (DB × Transaction) :=
  match db.transactions.find? (fun t => t.id == transaction_id) with
  | none => Except.error (ApiError.notFound "Transaction not found")
  | some tr =>
  match db.books.find? (fun b => b.id == tr.book_id) with
  | none => Except.error ApiError.internalError
  | some book =>
    let tr' : Transaction :=
      { tr with returned_at := some now,
                status := TransactionStatus.returned }
    let book' : Book :=
      { book with
        available_copies := book.available_copies + 1,
        status := if book.available_copies + 1 > 0 then BookStatus.available
                  else book.status }
    let overdue := now > tr.due_date
    let fines' :=
      if overdue then
        let days_overdue : Int := (now - tr.due_date) / 86400
        db.fines ++ [{ id := db.next_fine_id, member_id := tr.member_id,
                       transaction_id := tr.id,
                       amount := (days_overdue : ℚ) * (1 / 2),
                       paid_at := none }]
      else db.fines
    Except.ok
      ({ db with
         books := db.books.map (fun b => if b.id == tr.book_id then book' else b),
         transactions := db.transactions.map
           (fun t => if t.id == transaction_id then tr' else t),
         fines := fines',
         next_fine_id := if overdue then db.next_fine_id + 1 else db.next_fine_id },
       tr')

/-- `get_overdue_transactions`, main.py lines 294-300: a read-only query
returning the active transactions whose `due_date` is strictly before
`now`.  The session state is returned unchanged alongside the result. -/
def get_overdue_transactions (db : DB) (now : Int) : DB × List Transaction :=
  (db, db.transactions.filter (fun t =>
    t.status == TransactionStatus.active && t.due_date < now))

/-- `pay_fine`, main.py lines 353-362: resolve the fine (404) and stamp
`paid_at = now`, with no check that it was unpaid. -/
def pay_fine (db : DB) (now : Int) (fine_id : Nat) :
    Except ApiError (DB × Fine) :=
  match db.fines.find? (fun f => f.id == fine_id) with
  | none => Except.error (ApiError.notFound "Fine not found")
  | some fine =>
    let fine' : Fine := { fine with paid_at := some now }
    let fines' := db.fines.map (fun f => if f.id == fine_id then fine' else f)
    Except.ok ({ db with fines := fines' }, fine')

/-- Tags for the operations of the service, used to quantify a claim over
every endpoint that can touch the store. -/
inductive Op where
  | createBook
  | createMember
  | updateBook
  | deleteBook
  | updateMember
  | deleteMember
  | borrow
  | ret
  | payFine
deriving DecidableEq, Repr

/-- `Step op db now db'`: executing the endpoint tagged `op` at time `now`
on store `db` succeeded and left store `db'`.  (Failed requests raise
before mutating, so they leave the store unchanged; the read-only
endpoints return the store unchanged by `get_overdue_transactions` below.) -/
inductive Step : Op → DB → Int → DB → Prop where
  | createBook {db : DB} {now : Int} {i t a c : String} {n : Int} {db' : DB}
      {b : Book} (h : create_book db i t a c n = Except.ok (db', b)) :
      Step Op.createBook db now db'
  | createMember {db : DB} {now : Int} {n e u : String} {db' : DB}
      {m : Member} (h : create_member db n e u = Except.ok (db', m)) :
      Step Op.createMember db now db'
  | updateBook {db : DB} {now : Int} {bid : Nat} {i t a c : String}
      {n : Int} {db' : DB} {b : Book}
      (h : update_book db bid i t a c n = Except.ok (db', b)) :
      Step Op.updateBook db now db'
  | deleteBook {db : DB} {now : Int} {bid : Nat} {db' : DB}
      (h : delete_book db bid = Except.ok db') :
      Step Op.deleteBook db now db'
  | updateMember {db : DB} {now : Int} {mid : Nat} {n e : String}
      {db' : DB} {m : Member}
      (h : update_member db mid n e = Except.ok (db', m)) :
      Step Op.updateMember db now db'
  | deleteMember {db : DB} {now : Int} {mid : Nat} {db' : DB}
      (h : delete_member db mid = Except.ok db') :
      Step Op.deleteMember db now db'
  | borrow {db : DB} {now : Int} {bid mid : Nat} {db' : DB}
      {tr : Transaction}
      (h : borrow_book db now bid mid = Except.ok (db', tr)) :
      Step Op.borrow db now db'
  | ret {db : DB} {now : Int} {tid : Nat} {db' : DB} {tr : Transaction}
      (h : return_book db now tid = Except.ok (db', tr)) :
      Step Op.ret db now db'
  | payFine {db : DB} {now : Int} {fid : Nat} {db' : DB} {f : Fine}
      (h : pay_fine db now fid = Except.ok (db', f)) :
      Step Op.payFine db now db'

/-- The per-book invariant of spec section 3: copies within bounds and
`status = borrowed ⇔ available_copies = 0`. -/
def bookInvariant (b : Book) : Prop :=
  0 ≤ b.available_copies ∧ b.available_copies ≤ b.total_copies ∧
    (b.status = BookStatus.borrowed ↔ b.available_copies = 0)

/-! ### A concrete scenario: one book with a single copy, one member

Used both as witness data and to exhibit the behaviour of returning the
same transaction twice. -/

/-- The store component of a successful call's outcome, with a fallback
for the error case (every use below is on a call proved successful). -/
def resultDB {α : Type} (r : Except ApiError (DB × α)) (fallback : DB) : DB :=
  match r with
  | Except.ok p => p.1
  | Except.error _ => fallback

/-- A book created as `create_book(isbn="111", ..., total_copies=1)`. -/
def demoBook : Book :=
  { id := 1, isbn := "111", title := "Dune", author := "Herbert",
    category := "sf", status := BookStatus.available, total_copies := 1,
    available_copies := 1 }

/-- A member in good standing. -/
def demoMember : Member :=
  { id := 1, name := "Ada", email := "ada@example.com",
    membership_number := "mn-1", status := MemberStatus.active }

/-- The store holding just `demoBook` and `demoMember`. -/
def demoDB : DB :=
  { books := [demoBook], members := [demoMember], transactions := [],
    fines := [], next_book_id := 2, next_member_id := 2,
    next_transaction_id := 1, next_fine_id := 1 }

/-- The transaction `borrow(book_id=1, member_id=1)` creates at time 0. -/
def demoTr : Transaction :=
  { id := 1, book_id := 1, member_id := 1, borrowed_at := 0,
    due_date := 14 * 86400, returned_at := none,
    status := TransactionStatus.active }

/-- Store after the borrow at time 0. -/
def dbAfterBorrow : DB := resultDB (borrow_book demoDB 0 1 1) demoDB

/-- Store after returning transaction 1 at time 1 (on time). -/
def dbAfterReturn : DB := resultDB (return_book dbAfterBorrow 1 1) dbAfterBorrow

/-- Store after returning the same, already returned, transaction again
at time 2. -/
def dbAfterSecondReturn : DB :=
  resultDB (return_book dbAfterReturn 2 1) dbAfterReturn

/-- A fine of amount zero (as a sub-day overdue return produces, see
C10) that is still unpaid. -/
def demoFineZero : Fine :=
  { id := 1, member_id := 1, transaction_id := 7, amount := 0,
    paid_at := none }

/-- The demo store with one unpaid fine of amount 0 against the member. -/
def demoDBUnpaidFine : DB := { demoDB with fines := [demoFineZero] }

/-! ### Helper lemmas about the operations -/

/-- Finding by a predicate after updating exactly the matching rows: when
the update keeps the predicate true, the lookup returns the updated row. -/
theorem find?_map_ite {α : Type} (p : α → Bool) (g : α → α) (l : List α)
    (hg : ∀ a, p a = true → p (g a) = true) :
    (l.map (fun a => if p a then g a else a)).find? p =
      (l.find? p).map g := by
  induction l with
  | nil => rfl
  | cons a l ih =>
    by_cases hpa : p a = true
    · simp only [List.map_cons, hpa, if_true]
      rw [List.find?_cons_of_pos _ (hg a hpa), List.find?_cons_of_pos _ hpa]
      rfl
    · have hpa' : p a = false := by
        cases h : p a
        · rfl
        · exact absurd h hpa
      simp only [List.map_cons, hpa', if_false, Bool.false_eq_true]
      rw [List.find?_cons_of_neg _ (by simp [hpa']),
        List.find?_cons_of_neg _ (by simp [hpa'])]
      exact ih

/-- Everything a successful `borrow_book` guarantees: the guards that were
passed and the exact shape of the new store. -/
theorem borrow_book_ok {db : DB} {now : Int} {book_id member_id : Nat}
    {db' : DB} {tr : Transaction}
    (h : borrow_book db now book_id member_id = Except.ok (db', tr)) :
    ∃ book, db.books.find? (fun b => b.id == book_id) = some book ∧
      book.status = BookStatus.available ∧
      book.available_copies ≠ 0 ∧
      active_count db member_id < 3 ∧
      unpaid_count db member_id = 0 ∧
      tr = { id := db.next_transaction_id, book_id := book_id,
             member_id := member_id, borrowed_at := now,
             due_date := now + 14 * 86400, returned_at := none,
             status := TransactionStatus.active } ∧
      db' = { db with
        books := db.books.map (fun b => if b.id == book_id then
          { book with
            available_copies := book.available_copies - 1,
            status := if book.available_copies - 1 = 0 then
              BookStatus.borrowed else book.status } else b),
        transactions := db.transactions ++ [tr],
        next_transaction_id := db.next_transaction_id + 1 } := by
  unfold borrow_book at h
  cases hm : db.members.find? (fun m => m.id == member_id) with
  | none => simp only [hm] at h; exact Except.noConfusion h
  | some member =>
  simp only [hm] at h
  cases hb : db.books.find? (fun b => b.id == book_id) with
  | none => simp only [hb] at h; exact Except.noConfusion h
  | some book =>
  simp only [hb] at h
  refine ⟨book, rfl, ?_⟩
  by_cases h1 : book.status ≠ BookStatus.available ∨ book.available_copies = 0
  · rw [if_pos h1] at h; cases h
  rw [if_neg h1] at h
  by_cases h2 : active_count db member_id ≥ 3
  · rw [if_pos h2] at h; cases h
  rw [if_neg h2] at h
  by_cases h3 : unpaid_count db member_id > 0
  · rw [if_pos h3] at h; cases h
  rw [if_neg h3] at h
  push_neg at h1
  rw [Except.ok.injEq, Prod.mk.injEq] at h
  obtain ⟨hdb, htr⟩ := h
  subst htr
  exact ⟨h1.1, h1.2, by omega, by omega, rfl, hdb.symm⟩

/-- Everything a successful `return_book` guarantees: the transaction and
book that were found and the exact shape of the new store. -/
theorem return_book_ok {db : DB} {now : Int} {transaction_id : Nat}
    {db' : DB} {tr : Transaction}
    (h : return_book db now transaction_id = Except.ok (db', tr)) :
    ∃ tr0 book,
      db.transactions.find? (fun t => t.id == transaction_id) = some tr0 ∧
      db.books.find? (fun b => b.id == tr0.book_id) = some book ∧
      tr = { tr0 with returned_at := some now,
                      status := TransactionStatus.returned } ∧
      db' = { db with
        books := db.books.map (fun b => if b.id == tr0.book_id then
          { book with
            available_copies := book.available_copies + 1,
            status := if book.available_copies + 1 > 0 then
              BookStatus.available else book.status } else b),
        transactions := db.transactions.map
          (fun t => if t.id == transaction_id then tr else t),
        fines := if now > tr0.due_date then
            db.fines ++ [{ id := db.next_fine_id, member_id := tr0.member_id,
                           transaction_id := tr0.id,
                           amount := (((now - tr0.due_date) / 86400 : Int) : ℚ) * (1 / 2),
                           paid_at := none }]
          else db.fines,
        next_fine_id := if now > tr0.due_date then db.next_fine_id + 1
          else db.next_fine_id } := by
  unfold return_book at h
  cases ht : db.transactions.find? (fun t => t.id == transaction_id) with
  | none => simp only [ht] at h; exact Except.noConfusion h
  | some tr0 =>
  simp only [ht] at h
  cases hb : db.books.find? (fun b => b.id == tr0.book_id) with
  | none => simp only [hb] at h; exact Except.noConfusion h
  | some book =>
  simp only [hb] at h
  rw [Except.ok.injEq, Prod.mk.injEq] at h
  obtain ⟨hdb, htr⟩ := h
  subst htr
  exact ⟨tr0, book, rfl, hb, rfl, hdb.symm⟩

/-- `create_book` never touches the transactions table. -/
theorem create_book_transactions {db : DB} {i t a c : String} {n : Int}
    {db' : DB} {b : Book} (h : create_book db i t a c n = Except.ok (db', b)) :
    db'.transactions = db.transactions := by
  unfold create_book at h
  by_cases hd : db.books.any (fun b => b.isbn == i) = true
  · rw [if_pos hd] at h; cases h
  · rw [if_neg hd] at h
    rw [Except.ok.injEq, Prod.mk.injEq] at h
    rw [← h.1]

/-- `create_member` never touches the transactions table. -/
theorem create_member_transactions {db : DB} {n e u : String} {db' : DB}
    {m : Member} (h : create_member db n e u = Except.ok (db', m)) :
    db'.transactions = db.transactions := by
  unfold create_member at h
  by_cases hd : db.members.any
      (fun m => m.email == e || m.membership_number == u) = true
  · rw [if_pos hd] at h; cases h
  · rw [if_neg hd] at h
    rw [Except.ok.injEq, Prod.mk.injEq] at h
    rw [← h.1]

/-- `update_book` never touches the transactions table. -/
theorem update_book_transactions {db : DB} {bid : Nat} {i t a c : String}
    {n : Int} {db' : DB} {b : Book}
    (h : update_book db bid i t a c n = Except.ok (db', b)) :
    db'.transactions = db.transactions := by
  unfold update_book at h
  cases hf : db.books.find? (fun b => b.id == bid) with
  | none => simp only [hf] at h; exact Except.noConfusion h
  | some db_book =>
  simp only [hf] at h
  by_cases hd : db.books.any (fun b => b.id != bid && b.isbn == i) = true
  · rw [if_pos hd] at h; cases h
  · rw [if_neg hd] at h
    rw [Except.ok.injEq, Prod.mk.injEq] at h
    rw [← h.1]

/-- `delete_book` never touches the transactions table. -/
theorem delete_book_transactions {db : DB} {bid : Nat} {db' : DB}
    (h : delete_book db bid = Except.ok db') :
    db'.transactions = db.transactions := by
  unfold delete_book at h
  cases hf : db.books.find? (fun b => b.id == bid) with
  | none => simp only [hf] at h; exact Except.noConfusion h
  | some db_book =>
  simp only [hf, Except.ok.injEq] at h
  rw [← h]

/-- `update_member` never touches the transactions table. -/
theorem update_member_transactions {db : DB} {mid : Nat} {n e : String}
    {db' : DB} {m : Member}
    (h : update_member db mid n e = Except.ok (db', m)) :
    db'.transactions = db.transactions := by
  unfold update_member at h
  cases hf : db.members.find? (fun m => m.id == mid) with
  | none => simp only [hf] at h; exact Except.noConfusion h
  | some db_member =>
  simp only [hf] at h
  by_cases hd : db.members.any (fun m => m.id != mid && m.email == e) = true
  · rw [if_pos hd] at h; cases h
  · rw [if_neg hd] at h
    rw [Except.ok.injEq, Prod.mk.injEq] at h
    rw [← h.1]

/-- `delete_member` never touches the transactions table. -/
theorem delete_member_transactions {db : DB} {mid : Nat} {db' : DB}
    (h : delete_member db mid = Except.ok db') :
    db'.transactions = db.transactions := by
  unfold delete_member at h
  cases hf : db.members.find? (fun m => m.id == mid) with
  | none => simp only [hf] at h; exact Except.noConfusion h
  | some db_member =>
  simp only [hf, Except.ok.injEq] at h
  rw [← h]

/-- `pay_fine` never touches the transactions table. -/
theorem pay_fine_transactions {db : DB} {now : Int} {fid : Nat} {db' : DB}
    {f : Fine} (h : pay_fine db now fid = Except.ok (db', f)) :
    db'.transactions = db.transactions := by
  unfold pay_fine at h
  cases hf : db.fines.find? (fun f => f.id == fid) with
  | none => simp only [hf] at h; exact Except.noConfusion h
  | some fine =>
  simp only [hf] at h
  rw [Except.ok.injEq, Prod.mk.injEq] at h
  rw [← h.1]


/-- C1 (counterexample): the claim fails on the code.  Starting from a
store satisfying the invariant, borrow the single copy at time 0, return
it on time at time 1, then call `return_book` on the same transaction
again at time 2.  The second call is a `return_book` operation that
completes successfully, yet immediately afterwards the book has
`available_copies = 2 > 1 = total_copies`: the source has no guard
against returning an already-returned transaction (main.py lines
264-292 never check `transaction.status`). -/
theorem C1_counterexample :
    (return_book dbAfterReturn 2 1).isOk = true ∧
    dbAfterSecondReturn = resultDB (return_book dbAfterReturn 2 1) dbAfterReturn ∧
    (dbAfterSecondReturn.books.getD 0 default).available_copies = 2 ∧
    (dbAfterSecondReturn.books.getD 0 default).total_copies = 1 := by
  decide

/-- C1 (amended): for every book the invariant `0 ≤ available_copies ≤
total_copies` together with `status = borrowed ⇔ available_copies = 0`
holds immediately after any successful borrow; after a `return_book` it
holds provided every book had `available_copies < total_copies`
beforehand (as is the case when the returned transaction was still
active and each return matches a prior borrow).  Without that proviso a
second return of the same transaction drives `available_copies` above
`total_copies`. -/
theorem C1_borrow_return_invariant (db db' : DB) (now : Int)
    (hpre : ∀ b ∈ db.books, bookInvariant b)
    (hstep :
      (∃ bid mid tr, borrow_book db now bid mid = Except.ok (db', tr)) ∨
      ((∀ b ∈ db.books, b.available_copies < b.total_copies) ∧
        ∃ tid tr, return_book db now tid = Except.ok (db', tr))) :
    ∀ b' ∈ db'.books, bookInvariant b' := by
  rcases hstep with ⟨bid, mid, tr, h⟩ | ⟨hlt, tid, tr, h⟩
  · obtain ⟨book, hfind, hstat, hne, -, -, -, hdb⟩ := borrow_book_ok h
    subst hdb
    intro b' hb'
    simp only [List.mem_map] at hb'
    obtain ⟨b, hb, hmap⟩ := hb'
    by_cases hid : (b.id == bid) = true
    · rw [if_pos hid] at hmap
      obtain ⟨h0, h1, -⟩ := hpre book (List.mem_of_find?_eq_some hfind)
      subst hmap
      unfold bookInvariant
      dsimp only
      refine ⟨by omega, by omega, ?_⟩
      by_cases hz : book.available_copies - 1 = 0
      · simp [hz]
      · simp [hz, hstat]
    · rw [if_neg hid] at hmap
      subst hmap
      exact hpre b hb
  · obtain ⟨tr0, book, hfind, hbook, -, hdb⟩ := return_book_ok h
    subst hdb
    intro b' hb'
    simp only [List.mem_map] at hb'
    obtain ⟨b, hb, hmap⟩ := hb'
    by_cases hid : (b.id == tr0.book_id) = true
    · rw [if_pos hid] at hmap
      obtain ⟨h0, h1, -⟩ := hpre book (List.mem_of_find?_eq_some hbook)
      have h2 := hlt book (List.mem_of_find?_eq_some hbook)
      subst hmap
      have hpos : book.available_copies + 1 > 0 := by omega
      unfold bookInvariant
      dsimp only
      refine ⟨by omega, by omega, ?_⟩
      rw [if_pos hpos]
      constructor
      · intro hc; cases hc
      · intro hc; omega
    · rw [if_neg hid] at hmap
      subst hmap
      exact hpre b hb

/-- C1 (witness): the amended theorem applied to the demo scenario's
borrow at time 0, evaluated on the store's single book. -/
theorem C1_borrow_return_invariant_witness :
    bookInvariant (dbAfterBorrow.books.getD 0 default) := by
  apply C1_borrow_return_invariant demoDB dbAfterBorrow 0 ?_ ?_
    (dbAfterBorrow.books.getD 0 default) (by decide)
  · intro b hb
    have hb' : b = demoBook := by
      simpa [demoDB] using hb
    subst hb'
    exact ⟨by decide, by decide, by decide⟩
  · exact Or.inl ⟨1, 1, demoTr, by rfl⟩

/-- C2 (counterexample): the claim fails on the code.  In the demo run,
after the on-time return at time 1 the transaction has status returned
and `returned_at = some 1`; calling `return_book` on it again at time 2
succeeds and overwrites `returned_at` to `some 2` — so an operation does
change a transaction that already reached the returned state (main.py
lines 264-292 re-stamp `returned_at` unconditionally). -/
theorem C2_counterexample :
    (dbAfterReturn.transactions.getD 0 default).status =
      TransactionStatus.returned ∧
    (dbAfterReturn.transactions.getD 0 default).returned_at = some 1 ∧
    (return_book dbAfterReturn 2 1).isOk = true ∧
    (dbAfterSecondReturn.transactions.getD 0 default).returned_at = some 2 := by
  decide

/-- C2 (amended): the `status` field of the returned state is terminal —
no operation ever changes a transaction's status away from returned, and
a transaction never becomes returned except through `return_book`;
transactions are created only by borrow and never deleted.  However,
`return_book` on an already-returned transaction does re-stamp its
`returned_at` field, so the returned *record* is not immutable. -/
theorem C2_returned_terminal (op : Op) (db db' : DB) (now : Int)
    (hstep : Step op db now db') :
    (∀ t ∈ db.transactions, ∃ t' ∈ db'.transactions, t'.id = t.id ∧
        (t.status = TransactionStatus.returned →
          t'.status = TransactionStatus.returned)) ∧
    (∀ t' ∈ db'.transactions,
        (∃ t ∈ db.transactions, t.id = t'.id) ∨ op = Op.borrow) ∧
    (op ≠ Op.ret → ∀ t' ∈ db'.transactions,
        t'.status = TransactionStatus.returned →
          ∃ t ∈ db.transactions, t.id = t'.id ∧
            t.status = TransactionStatus.returned) := by
  have unchanged : db'.transactions = db.transactions →
      (∀ t ∈ db.transactions, ∃ t' ∈ db'.transactions, t'.id = t.id ∧
          (t.status = TransactionStatus.returned →
            t'.status = TransactionStatus.returned)) ∧
      (∀ t' ∈ db'.transactions,
          (∃ t ∈ db.transactions, t.id = t'.id) ∨ op = Op.borrow) ∧
      (op ≠ Op.ret → ∀ t' ∈ db'.transactions,
          t'.status = TransactionStatus.returned →
            ∃ t ∈ db.transactions, t.id = t'.id ∧
              t.status = TransactionStatus.returned) := by
    intro he
    refine ⟨?_, ?_, ?_⟩
    · intro t ht
      refine ⟨t, ?_, rfl, fun h => h⟩
      rw [he]
      exact ht
    · intro t' ht'
      rw [he] at ht'
      exact Or.inl ⟨t', ht', rfl⟩
    · intro _ t' ht' hret
      rw [he] at ht'
      exact ⟨t', ht', rfl, hret⟩
  cases hstep with
  | createBook h => exact unchanged (create_book_transactions h)
  | createMember h => exact unchanged (create_member_transactions h)
  | updateBook h => exact unchanged (update_book_transactions h)
  | deleteBook h => exact unchanged (delete_book_transactions h)
  | updateMember h => exact unchanged (update_member_transactions h)
  | deleteMember h => exact unchanged (delete_member_transactions h)
  | payFine h => exact unchanged (pay_fine_transactions h)
  | borrow h =>
    obtain ⟨book, -, -, -, -, -, htr, hdb⟩ := borrow_book_ok h
    subst hdb
    refine ⟨?_, ?_, ?_⟩
    · intro t ht
      exact ⟨t, List.mem_append_left _ ht, rfl, fun h => h⟩
    · intro t' ht'
      exact Or.inr rfl
    · intro _ t' ht' hret
      rcases List.mem_append.mp ht' with hmem | hmem
      · exact ⟨t', hmem, rfl, hret⟩
      · rw [List.mem_singleton] at hmem
        subst hmem
        rw [htr] at hret
        cases hret
  | ret h =>
    rename_i tid trr
    obtain ⟨tr0, book, hfind, -, htr, hdb⟩ := return_book_ok h
    have hid0 : tr0.id = tid := by
      have := List.find?_some hfind
      simpa using this
    subst hdb
    refine ⟨?_, ?_, ?_⟩
    · intro t ht
      refine ⟨_, List.mem_map_of_mem _ ht, ?_, ?_⟩
      · by_cases hid : (t.id == tid) = true
        · rw [if_pos hid, htr]
          dsimp only
          have hteq : t.id = tid := by simpa using hid
          rw [hid0, hteq]
        · rw [if_neg hid]
      · intro hs
        by_cases hid : (t.id == tid) = true
        · rw [if_pos hid, htr]
        · rw [if_neg hid]
          exact hs
    · intro t' ht'
      simp only [List.mem_map] at ht'
      obtain ⟨t, ht, hmap⟩ := ht'
      refine Or.inl ⟨t, ht, ?_⟩
      by_cases hid : (t.id == tid) = true
      · rw [if_pos hid] at hmap
        subst hmap
        rw [htr]
        dsimp only
        have hteq : t.id = tid := by simpa using hid
        rw [hid0, hteq]
      · rw [if_neg hid] at hmap
        subst hmap
        rfl
    · intro hne
      exact absurd rfl hne

/-- C2 (witness): the amended theorem applied to the demo borrow step. -/
theorem C2_returned_terminal_witness :
    (∀ t ∈ demoDB.transactions, ∃ t' ∈ dbAfterBorrow.transactions,
        t'.id = t.id ∧ (t.status = TransactionStatus.returned →
          t'.status = TransactionStatus.returned)) ∧
    (∀ t' ∈ dbAfterBorrow.transactions,
        (∃ t ∈ demoDB.transactions, t.id = t'.id) ∨ Op.borrow = Op.borrow) ∧
    (Op.borrow ≠ Op.ret → ∀ t' ∈ dbAfterBorrow.transactions,
        t'.status = TransactionStatus.returned →
          ∃ t ∈ demoDB.transactions, t.id = t'.id ∧
            t.status = TransactionStatus.returned) :=
  C2_returned_terminal Op.borrow demoDB dbAfterBorrow 0
    (Step.borrow (show borrow_book demoDB 0 1 1 =
      Except.ok (dbAfterBorrow, demoTr) from by rfl))

/-- Once member and book resolve, `borrow_book` returns a 409 conflict
exactly when one of the three business checks of main.py lines 226-245
fires. -/
theorem borrow_book_conflict_char (db : DB) (now : Int) (bid mid : Nat)
    (member : Member) (book : Book)
    (hm : db.members.find? (fun m => m.id == mid) = some member)
    (hb : db.books.find? (fun b => b.id == bid) = some book) :
    (∃ d, borrow_book db now bid mid = Except.error (ApiError.conflict d)) ↔
      ((book.status ≠ BookStatus.available ∨ book.available_copies = 0) ∨
        active_count db mid ≥ 3 ∨ unpaid_count db mid > 0) := by
  unfold borrow_book
  simp only [hm, hb]
  by_cases h1 : book.status ≠ BookStatus.available ∨ book.available_copies = 0
  · rw [if_pos h1]
    simp only [h1, true_or, iff_true]
    exact ⟨"Book not available", rfl⟩
  · rw [if_neg h1]
    by_cases h2 : active_count db mid ≥ 3
    · rw [if_pos h2]
      simp only [h2, true_or, or_true, iff_true]
      exact ⟨"Maximum borrowing limit reached", rfl⟩
    · rw [if_neg h2]
      by_cases h3 : unpaid_count db mid > 0
      · rw [if_pos h3]
        simp only [h3, or_true, iff_true]
        exact ⟨"Member has unpaid fines", rfl⟩
      · rw [if_neg h3]
        simp only [h1, h2, h3, or_self, iff_false, false_or]
        rintro ⟨d, hd⟩
        exact Except.noConfusion hd

/-- C5: with member and book resolved, borrow fails with a 409
ConflictError exactly when the book is unavailable or out of copies, the
member is at the borrowing limit, or the member has an unpaid fine — and
a book with `available_copies = 0` can never be borrowed.  A failed
borrow raises before any mutation in the source (main.py lines 226-245
precede every write), which the embedding reflects by returning no new
store on the error path. -/
theorem C5_borrow_conflict_iff (db : DB) (now : Int) (bid mid : Nat)
    (member : Member) (book : Book)
    (hm : db.members.find? (fun m => m.id == mid) = some member)
    (hb : db.books.find? (fun b => b.id == bid) = some book) :
    ((∃ d, borrow_book db now bid mid = Except.error (ApiError.conflict d)) ↔
      ((book.status ≠ BookStatus.available ∨ book.available_copies = 0) ∨
        active_count db mid ≥ 3 ∨ unpaid_count db mid > 0)) ∧
    (book.available_copies = 0 →
      ∀ db' tr, borrow_book db now bid mid ≠ Except.ok (db', tr)) := by
  have hchar := borrow_book_conflict_char db now bid mid member book hm hb
  refine ⟨hchar, ?_⟩
  intro hzero db' tr hok
  obtain ⟨d, hd⟩ := hchar.mpr (Or.inl (Or.inr hzero))
  rw [hok] at hd
  exact Except.noConfusion hd

/-- C5 (witness): the characterisation instantiated on the demo store,
whose book is available with one copy and whose member has no
transactions and no fines. -/
theorem C5_borrow_conflict_iff_witness :
    ((∃ d, borrow_book demoDB 0 1 1 = Except.error (ApiError.conflict d)) ↔
      ((demoBook.status ≠ BookStatus.available ∨
          demoBook.available_copies = 0) ∨
        active_count demoDB 1 ≥ 3 ∨ unpaid_count demoDB 1 > 0)) ∧
    (demoBook.available_copies = 0 →
      ∀ db' tr, borrow_book demoDB 0 1 1 ≠ Except.ok (db', tr)) :=
  C5_borrow_conflict_iff demoDB 0 1 1 demoMember demoBook (by rfl) (by rfl)

/-- C7: an unpaid fine (any `paid_at = null` row, no matter its amount,
zero included) makes borrow fail with a 409 ConflictError, provided the
member and book themselves resolve (otherwise the earlier 404 checks of
main.py lines 218-224 fire first). -/
theorem C7_unpaid_fine_blocks (db : DB) (now : Int) (bid mid : Nat)
    (member : Member) (book : Book) (f : Fine)
    (hm : db.members.find? (fun m => m.id == mid) = some member)
    (hb : db.books.find? (fun b => b.id == bid) = some book)
    (hf : f ∈ db.fines) (hfm : f.member_id = mid) (hfp : f.paid_at = none) :
    ∃ d, borrow_book db now bid mid = Except.error (ApiError.conflict d) := by
  have hcount : unpaid_count db mid > 0 := by
    unfold unpaid_count
    have hfmem : f ∈ db.fines.filter
        (fun f => f.member_id == mid && f.paid_at == none) := by
      rw [List.mem_filter]
      exact ⟨hf, by simp [hfm, hfp]⟩
    exact List.length_pos_of_mem hfmem
  exact (borrow_book_conflict_char db now bid mid member book hm hb).mpr
    (Or.inr (Or.inr hcount))


/-- C7 (witness): even a zero-amount unpaid fine blocks borrowing. -/
theorem C7_unpaid_fine_blocks_witness :
    ∃ d, borrow_book demoDBUnpaidFine 0 1 1 =
      Except.error (ApiError.conflict d) :=
  C7_unpaid_fine_blocks demoDBUnpaidFine 0 1 1 demoMember demoBook
    demoFineZero (by rfl) (by rfl) (List.mem_singleton.mpr rfl) rfl rfl

/-- An update (a `map`) that never makes the predicate true on a row that
did not already satisfy it cannot increase a filtered row count. -/
theorem length_filter_map_le {α : Type} (p : α → Bool) (f : α → α)
    (l : List α) (hf : ∀ a ∈ l, p (f a) = true → p a = true) :
    ((l.map f).filter p).length ≤ (l.filter p).length := by
  rw [← List.countP_eq_length_filter, ← List.countP_eq_length_filter,
    List.countP_map]
  exact List.countP_mono_left hf

/-- `active_count` only looks at the transactions table. -/
theorem active_count_congr {db db' : DB}
    (h : db'.transactions = db.transactions) (m : Nat) :
    active_count db' m = active_count db m := by
  unfold active_count
  rw [h]

/-- C6: the borrow-limit rule.  Borrow returns a 409 ConflictError
whenever the requesting member already has 3 or more active transactions
(and the member and book resolve, so the 404 checks do not fire first);
consequently, no operation can push any member's count of
status-active transactions above 3: every endpoint either leaves the
transactions table unchanged, marks a transaction returned, or — in the
case of a successful borrow — adds one active transaction after the
count-< 3 guard of main.py lines 230-236 passed. -/
theorem C6_borrow_limit (op : Op) (db db' : DB) (now : Int)
    (bid mid : Nat) (member : Member) (book : Book)
    (hstep : Step op db now db')
    (hpre : ∀ m0 : Nat, active_count db m0 ≤ 3) :
    (∀ m0 : Nat, active_count db' m0 ≤ 3) ∧
    (active_count db mid ≥ 3 →
      db.members.find? (fun m => m.id == mid) = some member →
      db.books.find? (fun b => b.id == bid) = some book →
      ∃ d, borrow_book db now bid mid = Except.error (ApiError.conflict d)) := by
  constructor
  · cases hstep with
    | createBook h =>
      intro m0; rw [active_count_congr (create_book_transactions h)]; exact hpre m0
    | createMember h =>
      intro m0; rw [active_count_congr (create_member_transactions h)]; exact hpre m0
    | updateBook h =>
      intro m0; rw [active_count_congr (update_book_transactions h)]; exact hpre m0
    | deleteBook h =>
      intro m0; rw [active_count_congr (delete_book_transactions h)]; exact hpre m0
    | updateMember h =>
      intro m0; rw [active_count_congr (update_member_transactions h)]; exact hpre m0
    | deleteMember h =>
      intro m0; rw [active_count_congr (delete_member_transactions h)]; exact hpre m0
    | payFine h =>
      intro m0; rw [active_count_congr (pay_fine_transactions h)]; exact hpre m0
    | borrow h =>
      rename_i bid0 mid0 trb
      obtain ⟨book0, -, -, -, hlt, -, htr, hdb⟩ := borrow_book_ok h
      subst hdb
      subst htr
      intro m0
      unfold active_count
      dsimp only
      rw [List.filter_append, List.length_append]
      by_cases hm0 : mid0 = m0
      · subst hm0
        have hsing : (List.filter
            (fun t => t.member_id == mid0 &&
              t.status == TransactionStatus.active)
            [({ id := db.next_transaction_id, book_id := bid0,
                member_id := mid0, borrowed_at := now,
                due_date := now + 14 * 86400, returned_at := none,
                status := TransactionStatus.active } : Transaction)]).length
            = 1 := by simp
        rw [hsing]
        have := hlt
        unfold active_count at this
        omega
      · have hsing : (List.filter
            (fun t => t.member_id == m0 &&
              t.status == TransactionStatus.active)
            [({ id := db.next_transaction_id, book_id := bid0,
                member_id := mid0, borrowed_at := now,
                due_date := now + 14 * 86400, returned_at := none,
                status := TransactionStatus.active } : Transaction)]).length
            = 0 := by simp [hm0]
        rw [hsing]
        have := hpre m0
        unfold active_count at this
        omega
    | ret h =>
      rename_i tid trr
      obtain ⟨tr0, book0, hfind, -, htr, hdb⟩ := return_book_ok h
      subst hdb
      intro m0
      unfold active_count
      dsimp only
      refine le_trans (length_filter_map_le _ _ _ ?_) ?_
      · intro t ht hp
        by_cases hid : (t.id == tid) = true
        · rw [if_pos hid, htr] at hp
          simp at hp
        · rw [if_neg hid] at hp
          exact hp
      · have := hpre m0
        unfold active_count at this
        exact this
  · intro hcnt hm hb
    exact (borrow_book_conflict_char db now bid mid member book hm hb).mpr
      (Or.inr (Or.inl hcnt))

/-- C6 (witness): the theorem applied to the demo borrow step, whose
starting store has no transactions at all. -/
theorem C6_borrow_limit_witness :
    (∀ m0 : Nat, active_count dbAfterBorrow m0 ≤ 3) ∧
    (active_count demoDB 1 ≥ 3 →
      demoDB.members.find? (fun m => m.id == 1) = some demoMember →
      demoDB.books.find? (fun b => b.id == 1) = some demoBook →
      ∃ d, borrow_book demoDB 0 1 1 = Except.error (ApiError.conflict d)) :=
  C6_borrow_limit Op.borrow demoDB dbAfterBorrow 0 1 1 demoMember demoBook
    (Step.borrow (show borrow_book demoDB 0 1 1 =
      Except.ok (dbAfterBorrow, demoTr) from by rfl))
    (fun _ => Nat.zero_le 3)

/-- C4: a successful borrow creates exactly one transaction — active,
with null `returned_at`, `borrowed_at = now` and `due_date = borrowed_at
+ 14 days` — and decrements the book's `available_copies` by exactly 1,
marking the book borrowed when the count reaches 0 (and leaving its
status untouched otherwise). -/
theorem C4_borrow_creates (db db' : DB) (now : Int) (bid mid : Nat)
    (tr : Transaction) (book : Book)
    (hb : db.books.find? (fun b => b.id == bid) = some book)
    (h : borrow_book db now bid mid = Except.ok (db', tr)) :
    tr.status = TransactionStatus.active ∧
    tr.returned_at = none ∧
    tr.borrowed_at = now ∧
    tr.due_date = tr.borrowed_at + 14 * 86400 ∧
    db'.transactions = db.transactions ++ [tr] ∧
    ∃ book', db'.books.find? (fun b => b.id == bid) = some book' ∧
      book'.available_copies = book.available_copies - 1 ∧
      (book'.available_copies = 0 → book'.status = BookStatus.borrowed) ∧
      (book'.available_copies ≠ 0 → book'.status = book.status) := by
  obtain ⟨book0, hb0, -, -, -, -, htr, hdb⟩ := borrow_book_ok h
  rw [hb0] at hb
  injection hb with hbb
  subst hbb
  subst htr
  subst hdb
  refine ⟨rfl, rfl, rfl, rfl, rfl, ?_⟩
  have hp0 : book0.id = bid := by
    have := List.find?_some hb0
    simpa using this
  refine ⟨{ book0 with
      available_copies := book0.available_copies - 1,
      status := if book0.available_copies - 1 = 0 then BookStatus.borrowed
                else book0.status }, ?_, rfl, ?_, ?_⟩
  · dsimp only
    rw [find?_map_ite (fun b => b.id == bid)
      (fun _ => { book0 with
        available_copies := book0.available_copies - 1,
        status := if book0.available_copies - 1 = 0 then BookStatus.borrowed
                  else book0.status }) db.books (fun a _ => by simp [hp0]), hb0]
    rfl
  · intro hz
    dsimp only at hz ⊢
    rw [if_pos hz]
  · intro hz
    dsimp only at hz ⊢
    rw [if_neg hz]

/-- C4 (witness): the demo borrow at time 0. -/
theorem C4_borrow_creates_witness :
    demoTr.status = TransactionStatus.active ∧
    demoTr.returned_at = none ∧
    demoTr.borrowed_at = 0 ∧
    demoTr.due_date = demoTr.borrowed_at + 14 * 86400 ∧
    dbAfterBorrow.transactions = demoDB.transactions ++ [demoTr] ∧
    ∃ book', dbAfterBorrow.books.find? (fun b => b.id == 1) = some book' ∧
      book'.available_copies = demoBook.available_copies - 1 ∧
      (book'.available_copies = 0 → book'.status = BookStatus.borrowed) ∧
      (book'.available_copies ≠ 0 → book'.status = demoBook.status) :=
  C4_borrow_creates demoDB dbAfterBorrow 0 1 1 demoTr demoBook
    (by rfl) (by rfl)

/-- C3: if the transaction is returned on time (`now ≤ due_date`) the
fines table is untouched — no Fine is ever created; if it is returned
three whole days late (`due_date + 3 days ≤ now < due_date + 4 days`),
exactly one Fine is appended, of amount `3 × 0.50 = 1.50`, unpaid
(`paid_at = null`). -/
theorem C3_fine_on_late_return (db db' : DB) (now : Int) (tid : Nat)
    (tr0 tr : Transaction)
    (ht : db.transactions.find? (fun t => t.id == tid) = some tr0)
    (h : return_book db now tid = Except.ok (db', tr)) :
    (now ≤ tr0.due_date → db'.fines = db.fines) ∧
    (tr0.due_date + 3 * 86400 ≤ now → now < tr0.due_date + 4 * 86400 →
      ∃ f, db'.fines = db.fines ++ [f] ∧ f.amount = 3 / 2 ∧
        f.paid_at = none) := by
  obtain ⟨tr0', book, ht', -, -, hdb⟩ := return_book_ok h
  rw [ht] at ht'
  injection ht' with he
  subst he
  subst hdb
  constructor
  · intro hle
    dsimp only
    rw [if_neg (by omega : ¬ now > tr0.due_date)]
  · intro h3 h4
    have hgt : now > tr0.due_date := by omega
    dsimp only
    rw [if_pos hgt]
    refine ⟨_, rfl, ?_, rfl⟩
    show (((now - tr0.due_date) / 86400 : Int) : ℚ) * (1 / 2) = 3 / 2
    have hdiv : (now - tr0.due_date) / 86400 = 3 := by omega
    rw [hdiv]
    norm_num

/-- C3 (witness): returning the demo transaction exactly 3 days after
its due date (time 1209600 + 259200). -/
theorem C3_fine_on_late_return_witness :
    ((1209600 + 259200 : Int) ≤ demoTr.due_date →
      (resultDB (return_book dbAfterBorrow (1209600 + 259200) 1)
        dbAfterBorrow).fines = dbAfterBorrow.fines) ∧
    (demoTr.due_date + 3 * 86400 ≤ (1209600 + 259200 : Int) →
      (1209600 + 259200 : Int) < demoTr.due_date + 4 * 86400 →
      ∃ f, (resultDB (return_book dbAfterBorrow (1209600 + 259200) 1)
          dbAfterBorrow).fines = dbAfterBorrow.fines ++ [f] ∧
        f.amount = 3 / 2 ∧ f.paid_at = none) :=
  C3_fine_on_late_return dbAfterBorrow
    (resultDB (return_book dbAfterBorrow (1209600 + 259200) 1) dbAfterBorrow)
    (1209600 + 259200) 1 demoTr
    { demoTr with returned_at := some (1209600 + 259200),
                  status := TransactionStatus.returned }
    (by rfl) (by rfl)

/-- C10: a return that is late by less than one whole day
(`due_date < now < due_date + 1 day`) still creates a Fine —
`days_overdue` is the floor of whole days, so the amount is 0.0 — and
that fine is unpaid (`paid_at = null`), which blocks future borrowing
(main.py lines 239-245 count rows with null `paid_at`, ignoring the
amount). -/
theorem C10_zero_amount_fine (db db' : DB) (now : Int) (tid : Nat)
    (tr0 tr : Transaction)
    (ht : db.transactions.find? (fun t => t.id == tid) = some tr0)
    (h : return_book db now tid = Except.ok (db', tr))
    (hlate : tr0.due_date < now) (hless : now < tr0.due_date + 86400) :
    ∃ f, db'.fines = db.fines ++ [f] ∧ f.amount = 0 ∧ f.paid_at = none := by
  obtain ⟨tr0', book, ht', -, -, hdb⟩ := return_book_ok h
  rw [ht] at ht'
  injection ht' with he
  subst he
  subst hdb
  dsimp only
  rw [if_pos (by omega : now > tr0.due_date)]
  refine ⟨_, rfl, ?_, rfl⟩
  show (((now - tr0.due_date) / 86400 : Int) : ℚ) * (1 / 2) = 0
  have hdiv : (now - tr0.due_date) / 86400 = 0 := by omega
  rw [hdiv]
  norm_num

/-- C10 (witness): returning the demo transaction 5 seconds past its due
date yields an unpaid fine of amount 0. -/
theorem C10_zero_amount_fine_witness :
    ∃ f, (resultDB (return_book dbAfterBorrow 1209605 1)
        dbAfterBorrow).fines = dbAfterBorrow.fines ++ [f] ∧
      f.amount = 0 ∧ f.paid_at = none :=
  C10_zero_amount_fine dbAfterBorrow
    (resultDB (return_book dbAfterBorrow 1209605 1) dbAfterBorrow)
    1209605 1 demoTr
    { demoTr with returned_at := some 1209605,
                  status := TransactionStatus.returned }
    (by rfl) (by rfl) (by decide) (by decide)

/-- C9: `get_overdue_transactions` leaves the store untouched and
returns exactly the transactions with status active and `due_date`
strictly before the current time — no others. -/
theorem C9_overdue_exact (db : DB) (now : Int) :
    (get_overdue_transactions db now).1 = db ∧
    ∀ t, t ∈ (get_overdue_transactions db now).2 ↔
      (t ∈ db.transactions ∧ t.status = TransactionStatus.active ∧
        t.due_date < now) := by
  refine ⟨rfl, ?_⟩
  intro t
  unfold get_overdue_transactions
  dsimp only
  rw [List.mem_filter]
  simp [and_assoc]

/-- C8 (counterexample): the claim fails on the code.  Creating a second
book with the isbn "111" that `demoBook` already uses is rejected by the
`UNIQUE` constraint, but the resulting failure is the IntegrityError
escaping `create_book` unhandled — an HTTP 500, not the 409 a
`ConflictError` denotes. -/
theorem C8_counterexample :
    create_book demoDB "111" "x" "y" "z" 2 =
      Except.error ApiError.integrityError ∧
    httpStatus ApiError.integrityError ≠ 409 :=
  ⟨by rfl, by decide⟩

/-- C8 (amended): when a book with the same isbn already exists,
`create_book` fails and creates no new record (the error path returns no
modified store, matching the constraint-violating commit being rolled
back), but the failure is the repository's IntegrityError propagating
unhandled (HTTP 500), not a ConflictError (409). -/
theorem C8_duplicate_isbn (db : DB) (isbn title author category : String)
    (n : Int) (b : Book) (hmem : b ∈ db.books) (hisbn : b.isbn = isbn) :
    create_book db isbn title author category n =
      Except.error ApiError.integrityError ∧
    httpStatus ApiError.integrityError = 500 := by
  refine ⟨?_, rfl⟩
  unfold create_book
  rw [if_pos]
  rw [List.any_eq_true]
  exact ⟨b, hmem, by simp [hisbn]⟩

/-- C8 (witness): the amended statement on the demo store. -/
theorem C8_duplicate_isbn_witness :
    create_book demoDB "111" "t2" "a2" "c2" 5 =
      Except.error ApiError.integrityError ∧
    httpStatus ApiError.integrityError = 500 :=
  C8_duplicate_isbn demoDB "111" "t2" "a2" "c2" 5 demoBook
    (List.mem_singleton.mpr rfl) rfl
